import Mathlib

/-!
Verification of the RNTester navigation core: the navigation reducer, the
example-list curator, and the shell's hardware back-press handler
(`packages/rn-tester/js/RNTesterAppShared.js`).

The shell component `RNTesterAppShared.js` is in the sources.  The reducer
(`utils/RNTesterNavigationReducer.js`) and the state utilities
(`utils/testerStateUtils.js`) are imported by the shell but their files are
not part of the provided sources, so those definitions are modelled from the
design document (sections 3, 4.1 and 4.2), as marked on each definition.
-/

namespace RNTester

/-- Modelled from the spec: the `Screens` enumeration of
`utils/testerStateUtils.js` (file not in the provided sources); the spec
says `screen` is one of `Components | APIs | Bookmarks`. -/
inductive Screen where
  | components
  | apis
  | bookmarks
deriving DecidableEq

/-- Modelled from the spec: the `NavigationState` record owned by the
reducer of `utils/RNTesterNavigationReducer.js` (file not in the provided
sources).  Per section 3, `bookmarks` is a set of (category, key) pairs with
no ordering, and `recentlyUsed` records module keys most-recent-first. -/
structure NavigationState where
  screen : Screen
  activeModuleKey : Option String
  activeModuleTitle : Option String
  activeModuleExampleKey : Option String
  bookmarks : Finset (Screen × String)
  recentlyUsed : List String
deriving DecidableEq

/-- Modelled from the spec: the fixed initial value of
`utils/testerStateUtils.js` (file not in the provided sources):
`screen = Components`, everything else empty or null. -/
def initialNavigationState : NavigationState :=
  { screen := Screen.components
    activeModuleKey := none
    activeModuleTitle := none
    activeModuleExampleKey := none
    bookmarks := ∅
    recentlyUsed := [] }

/-- Modelled from the spec: the tagged union of the five action kinds of
section 4.1 (the action constants of `utils/RNTesterNavigationReducer.js`
are not in the provided sources). -/
inductive NavigationAction where
  | backButtonPress
  | moduleCardPress (moduleKey title : String) (category : Screen)
  | exampleCardPress (exampleKey : String)
  | bookmarkToggle (key : String) (category : Screen)
  | navBarPress (screen : Screen)
deriving DecidableEq

/-- Modelled from the spec: the capacity of `recentlyUsed` is "a fixed
limit" whose numeric value the spec does not name; it is represented here by
one constant so every statement refers to the configured capacity. -/
def recentlyUsedCapacity : Nat := 5

/-- Modelled from the spec: the pure transition function
`RNTesterNavigationReducer` of `utils/RNTesterNavigationReducer.js` (file
not in the provided sources), following the transitions of section 4.1 and
the tie-break policy of section 4 (a nav-bar press clears any open module
even when the target screen equals the current one, per the tie-break
paragraph and the testable property of section 8). -/
def RNTesterNavigationReducer (s : NavigationState) (a : NavigationAction) :
    NavigationState :=
  match a with
  | NavigationAction.backButtonPress =>
      if s.activeModuleExampleKey ≠ none then
        { s with activeModuleExampleKey := none }
      else if s.activeModuleKey ≠ none then
        { s with activeModuleKey := none, activeModuleTitle := none }
      else s
  | NavigationAction.moduleCardPress k t _c =>
      { s with
        activeModuleKey := some k
        activeModuleTitle := some t
        activeModuleExampleKey := none
        recentlyUsed :=
          (k :: s.recentlyUsed.filter (fun x => x ≠ k)).take
            recentlyUsedCapacity }
  | NavigationAction.exampleCardPress ek =>
      if s.activeModuleKey ≠ none then
        { s with activeModuleExampleKey := some ek }
      else s
  | NavigationAction.bookmarkToggle k c =>
      { s with
        bookmarks :=
          if (c, k) ∈ s.bookmarks then s.bookmarks.erase (c, k)
          else insert (c, k) s.bookmarks }
  | NavigationAction.navBarPress scr =>
      { s with
        screen := scr
        activeModuleKey := none
        activeModuleTitle := none
        activeModuleExampleKey := none }

/-- The state reached from the initial state by a sequence of dispatched
actions (the shell dispatches actions one at a time, FIFO). -/
def runActions (acts : List NavigationAction) : NavigationState :=
  acts.foldl RNTesterNavigationReducer initialNavigationState

/-- Modelled from the spec: an example entry of the Catalog Registry
(`utils/RNTesterList.js` is not in the provided sources); identified by a
name unique within its module. -/
structure CatalogExample where
  name : String
deriving DecidableEq

/-- Modelled from the spec: a module of the Catalog Registry
(`utils/RNTesterList.js` is not in the provided sources): unique key, title,
category tag, ordered examples. -/
structure CatalogModule where
  key : String
  title : String
  category : Screen
  examples : List CatalogExample
deriving DecidableEq

/-- Modelled from the spec: an entry of the bookmarks section — per
section 4.2 step 3 that section holds "all modules and examples whose key
is present in the bookmarks set", so an entry is either a module or an
example together with the module it belongs to. -/
inductive CatalogEntry where
  | moduleEntry (m : CatalogModule)
  | exampleEntry (m : CatalogModule) (e : CatalogExample)
deriving DecidableEq

/-- Modelled from the spec: the derived sections returned by the curator of
`utils/testerStateUtils.js` (file not in the provided sources): category
buckets with an attached bookmark flag, the bookmarks section of modules
and examples in registry order, and the recently-used list in recency
order. -/
structure ExamplesList where
  components : List (CatalogModule × Bool)
  apis : List (CatalogModule × Bool)
  bookmarks : List CatalogEntry
  recentlyUsed : List CatalogModule
deriving DecidableEq

/-- Modelled from the spec: the bookmark membership test of section 4.2
step 2 for a module's (category, key) pair. -/
def isBookmarked (bm : Finset (Screen × String)) (m : CatalogModule) :
    Bool :=
  (m.category, m.key) ∈ bm

/-- Modelled from the spec: the bookmark membership test for an example,
whose key is its name paired with the category of its module (bookmarks
are (category, moduleOrExampleKey) pairs per section 3). -/
def isExampleBookmarked (bm : Finset (Screen × String))
    (m : CatalogModule) (e : CatalogExample) : Bool :=
  (m.category, e.name) ∈ bm

/-- Modelled from the spec: the bookmarked entries a single module
contributes to the bookmarks section, in registry order — the module
itself when its key is bookmarked, then its bookmarked examples in their
declared order (section 4.2 step 3). -/
def bookmarkEntries (bm : Finset (Screen × String))
    (m : CatalogModule) : List CatalogEntry :=
  (if isBookmarked bm m then [CatalogEntry.moduleEntry m] else []) ++
    (m.examples.filter (fun e => isExampleBookmarked bm m e)).map
      (fun e => CatalogEntry.exampleEntry m e)

/-- Modelled from the spec: the curation algorithm of section 4.2 applied to
a loaded registry: partition by category in registry order, attach the
bookmark flag, build the bookmarks section of all bookmarked modules and
examples in registry order, and derive the recently-used modules in recency
order, silently omitting keys that resolve to no registry entry. -/
def curateSections (mods : List CatalogModule)
    (bm : Finset (Screen × String)) (ru : List String) : ExamplesList :=
  { components :=
      (mods.filter (fun m => m.category = Screen.components)).map
        (fun m => (m, isBookmarked bm m))
    apis :=
      (mods.filter (fun m => m.category = Screen.apis)).map
        (fun m => (m, isBookmarked bm m))
    bookmarks := mods.flatMap (fun m => bookmarkEntries bm m)
    recentlyUsed :=
      ru.filterMap (fun k => mods.find? (fun m => m.key = k)) }

/-- Modelled from the spec: `getExamplesListWithBookmarksAndRecentlyUsed` of
`utils/testerStateUtils.js` (file not in the provided sources).  Per section
4.2 step 5 it returns the "not ready" sentinel exactly when the registry has
not finished loading, and otherwise always a value. -/
def getExamplesListWithBookmarksAndRecentlyUsed
    (registry : Option (List CatalogModule))
    (bm : Finset (Screen × String)) (ru : List String) :
    Option ExamplesList :=
  registry.map (fun mods => curateSections mods bm ru)

/-- The active-module lookup of `RNTesterAppShared.js`:
`RNTesterList.Modules[activeModuleKey]` when a key is set, null otherwise;
a dictionary miss yields null. -/
def activeModule (mods : List CatalogModule)
    (activeModuleKey : Option String) : Option CatalogModule :=
  match activeModuleKey with
  | some k => mods.find? (fun m => m.key = k)
  | none => none

/-- The active-example lookup of `RNTesterAppShared.js`:
`activeModule?.examples.find(e => e.name === activeModuleExampleKey)` when
an example key is set, null otherwise; a missing module or a name that
matches no example yields null. -/
def activeModuleExample (mods : List CatalogModule)
    (activeModuleKey activeModuleExampleKey : Option String) :
    Option CatalogExample :=
  match activeModuleExampleKey with
  | some ek =>
      (activeModule mods activeModuleKey).bind
        (fun m => m.examples.find? (fun e => e.name = ek))
  | none => none

/-- JavaScript truthiness of a nullable string: null is falsy and so is the
empty string. -/
def jsTruthy : Option String → Bool
  | none => false
  | some s => s ≠ ""

/-- `handleBackPress` of `RNTesterAppShared.js` dispatches
`BACK_BUTTON_PRESS` exactly when `activeModuleKey != null`. -/
def handleBackPressDispatches (activeModuleKey : Option String) : Bool :=
  activeModuleKey.isSome

/-- `handleHardwareBackPress` of `RNTesterAppShared.js`: when
`activeModuleKey` is truthy it calls `handleBackPress` and returns true
(consuming the platform event); otherwise it returns false.  The first
component is the handler's return value, the second whether a
`BACK_BUTTON_PRESS` action is dispatched. -/
def handleHardwareBackPress (activeModuleKey : Option String) :
    Bool × Bool :=
  if jsTruthy activeModuleKey then
    (true, handleBackPressDispatches activeModuleKey)
  else
    (false, false)

/-- The example-implies-module invariant is preserved by one reducer
step. -/
lemma inv_step_example_module (s : NavigationState) (a : NavigationAction)
    (h : s.activeModuleExampleKey ≠ none → s.activeModuleKey ≠ none) :
    (RNTesterNavigationReducer s a).activeModuleExampleKey ≠ none →
      (RNTesterNavigationReducer s a).activeModuleKey ≠ none := by
  obtain ⟨scr, amk, amt, aek, bm, ru⟩ := s
  cases a <;> cases aek <;> cases amk <;>
    simp_all [RNTesterNavigationReducer]

/-- The example-implies-module invariant holds in every reachable state. -/
lemma inv_run_example_module (acts : List NavigationAction) :
    (runActions acts).activeModuleExampleKey ≠ none →
      (runActions acts).activeModuleKey ≠ none := by
  have key : ∀ (l : List NavigationAction) (s : NavigationState),
      (s.activeModuleExampleKey ≠ none → s.activeModuleKey ≠ none) →
      ((l.foldl RNTesterNavigationReducer s).activeModuleExampleKey ≠ none →
        (l.foldl RNTesterNavigationReducer s).activeModuleKey ≠ none) := by
    intro l
    induction l with
    | nil => intro s h; simpa using h
    | cons a l ih =>
        intro s h
        exact ih (RNTesterNavigationReducer s a)
          (inv_step_example_module s a h)
  exact key acts initialNavigationState (by simp [initialNavigationState])

/-- C1: the `BackButtonPress` transition is a three-way case analysis: with
an active example it clears only `activeModuleExampleKey`; else with an
active module it clears `activeModuleKey` and `activeModuleTitle`; else it
returns the state itself, the identity. -/
theorem back_button_press_cases (s : NavigationState) :
    (s.activeModuleExampleKey ≠ none →
      RNTesterNavigationReducer s NavigationAction.backButtonPress =
        { s with activeModuleExampleKey := none }) ∧
    (s.activeModuleExampleKey = none → s.activeModuleKey ≠ none →
      RNTesterNavigationReducer s NavigationAction.backButtonPress =
        { s with activeModuleKey := none, activeModuleTitle := none }) ∧
    (s.activeModuleExampleKey = none → s.activeModuleKey = none →
      RNTesterNavigationReducer s NavigationAction.backButtonPress = s) := by
  refine ⟨fun h1 => ?_, fun h1 h2 => ?_, fun h1 h2 => ?_⟩
  · simp [RNTesterNavigationReducer, h1]
  · simp [RNTesterNavigationReducer, h1, h2]
  · simp [RNTesterNavigationReducer, h1, h2]

/-- Witness for C1: all three branches at concrete states. -/
theorem back_button_press_cases_witness :
    (RNTesterNavigationReducer
        { initialNavigationState with
          activeModuleKey := some "Button"
          activeModuleExampleKey := some "basic usage" }
        NavigationAction.backButtonPress =
      { initialNavigationState with activeModuleKey := some "Button" }) ∧
    (RNTesterNavigationReducer
        { initialNavigationState with activeModuleKey := some "Button" }
        NavigationAction.backButtonPress = initialNavigationState) ∧
    (RNTesterNavigationReducer initialNavigationState
        NavigationAction.backButtonPress = initialNavigationState) := by
  refine ⟨?_, ?_, ?_⟩
  · have h := (back_button_press_cases
      { initialNavigationState with
        activeModuleKey := some "Button"
        activeModuleExampleKey := some "basic usage" }).1 (by decide)
    simpa [initialNavigationState] using h
  · have h := ((back_button_press_cases
      { initialNavigationState with
        activeModuleKey := some "Button" }).2.1 (by decide) (by decide))
    simpa [initialNavigationState] using h
  · exact (back_button_press_cases initialNavigationState).2.2 rfl rfl

/-- C4: `NavBarPress(t)` always sets `screen` to `t` and clears the active
module key, example key and title, for every prior state — in particular
also when `t` equals the current screen. -/
theorem nav_bar_press_resets (s : NavigationState) (t : Screen) :
    (RNTesterNavigationReducer s (NavigationAction.navBarPress t)).screen
        = t ∧
    (RNTesterNavigationReducer s
        (NavigationAction.navBarPress t)).activeModuleKey = none ∧
    (RNTesterNavigationReducer s
        (NavigationAction.navBarPress t)).activeModuleExampleKey = none ∧
    (RNTesterNavigationReducer s
        (NavigationAction.navBarPress t)).activeModuleTitle = none := by
  simp [RNTesterNavigationReducer]

/-- C5: `ModuleCardPress(k, t, c)` sets the active module key and title,
clears the active example key, front-inserts the key into `recentlyUsed`
de-duplicated and trimmed to capacity, and leaves screen and bookmarks
unchanged; from the initial state, pressing Button yields active key
"Button" and `recentlyUsed = ["Button"]`. -/
theorem module_card_press_spec :
    (∀ (s : NavigationState) (k t : String) (c : Screen),
      (RNTesterNavigationReducer s
          (NavigationAction.moduleCardPress k t c)).activeModuleKey
          = some k ∧
      (RNTesterNavigationReducer s
          (NavigationAction.moduleCardPress k t c)).activeModuleTitle
          = some t ∧
      (RNTesterNavigationReducer s
          (NavigationAction.moduleCardPress k t c)).activeModuleExampleKey
          = none ∧
      (RNTesterNavigationReducer s
          (NavigationAction.moduleCardPress k t c)).recentlyUsed
          = (k :: s.recentlyUsed.filter (fun x => x ≠ k)).take
              recentlyUsedCapacity ∧
      (RNTesterNavigationReducer s
          (NavigationAction.moduleCardPress k t c)).screen = s.screen ∧
      (RNTesterNavigationReducer s
          (NavigationAction.moduleCardPress k t c)).bookmarks
          = s.bookmarks) ∧
    (RNTesterNavigationReducer initialNavigationState
        (NavigationAction.moduleCardPress "Button" "Button"
          Screen.components)).activeModuleKey = some "Button" ∧
    (RNTesterNavigationReducer initialNavigationState
        (NavigationAction.moduleCardPress "Button" "Button"
          Screen.components)).recentlyUsed = ["Button"] := by
  refine ⟨fun s k t c => ?_, ?_, ?_⟩
  · simp [RNTesterNavigationReducer]
  · rfl
  · rfl

/-- C7: `ExampleCardPress` with no active module is a no-op: the state is
returned unchanged, for every example key. -/
theorem example_card_press_noop (s : NavigationState) (ek : String)
    (h : s.activeModuleKey = none) :
    RNTesterNavigationReducer s (NavigationAction.exampleCardPress ek)
      = s := by
  simp [RNTesterNavigationReducer, h]

/-- Witness for C7: a concrete state with no active module and a pressed
example card. -/
theorem example_card_press_noop_witness :
    initialNavigationState.activeModuleKey = none ∧
    RNTesterNavigationReducer initialNavigationState
        (NavigationAction.exampleCardPress "basic usage")
      = initialNavigationState :=
  ⟨rfl, example_card_press_noop initialNavigationState "basic usage" rfl⟩

/-- One reducer step keeps `recentlyUsed` within capacity and free of
duplicates. -/
lemma recentlyUsed_bounded_nodup_step (s : NavigationState)
    (a : NavigationAction)
    (hlen : s.recentlyUsed.length ≤ recentlyUsedCapacity)
    (hnd : s.recentlyUsed.Nodup) :
    (RNTesterNavigationReducer s a).recentlyUsed.length ≤
        recentlyUsedCapacity ∧
      (RNTesterNavigationReducer s a).recentlyUsed.Nodup := by
  obtain ⟨scr, amk, amt, aek, bm, ru⟩ := s
  dsimp only at hlen hnd
  cases a with
  | moduleCardPress k t c =>
      constructor
      · simp only [RNTesterNavigationReducer, List.length_take]
        exact min_le_left _ _
      · simp only [RNTesterNavigationReducer]
        refine List.Nodup.sublist (List.take_sublist _ _) ?_
        refine List.nodup_cons.mpr ⟨?_, hnd.filter _⟩
        simp [List.mem_filter]
  | backButtonPress =>
      cases aek <;> cases amk <;>
        simp_all [RNTesterNavigationReducer]
  | exampleCardPress ek =>
      cases amk <;> simp_all [RNTesterNavigationReducer]
  | bookmarkToggle k c =>
      simp_all [RNTesterNavigationReducer]
  | navBarPress scr2 =>
      simp_all [RNTesterNavigationReducer]

/-- Every reachable state keeps `recentlyUsed` within capacity and free of
duplicates. -/
lemma recentlyUsed_bounded_nodup_run (acts : List NavigationAction) :
    (runActions acts).recentlyUsed.length ≤ recentlyUsedCapacity ∧
      (runActions acts).recentlyUsed.Nodup := by
  have key : ∀ (l : List NavigationAction) (s : NavigationState),
      s.recentlyUsed.length ≤ recentlyUsedCapacity → s.recentlyUsed.Nodup →
      ((l.foldl RNTesterNavigationReducer s).recentlyUsed.length ≤
          recentlyUsedCapacity ∧
        (l.foldl RNTesterNavigationReducer s).recentlyUsed.Nodup) := by
    intro l
    induction l with
    | nil => intro s h1 h2; exact ⟨h1, h2⟩
    | cons a l ih =>
        intro s h1 h2
        obtain ⟨h1a, h2a⟩ := recentlyUsed_bounded_nodup_step s a h1 h2
        exact ih (RNTesterNavigationReducer s a) h1a h2a
  exact key acts initialNavigationState (by simp [initialNavigationState])
    (by simp [initialNavigationState])

/-- Pressing a module whose key is already present moves that key to the
front and removes its old occurrence, with no truncation needed. -/
lemma recentlyUsed_move_to_front (s : NavigationState) (k t : String)
    (c : Screen) (hmem : k ∈ s.recentlyUsed)
    (hlen : s.recentlyUsed.length ≤ recentlyUsedCapacity)
    (hnd : s.recentlyUsed.Nodup) :
    (RNTesterNavigationReducer s
        (NavigationAction.moduleCardPress k t c)).recentlyUsed
      = k :: s.recentlyUsed.erase k := by
  obtain ⟨scr, amk, amt, aek, bm, ru⟩ := s
  dsimp only at hmem hlen hnd
  simp only [RNTesterNavigationReducer]
  have hfe : ru.filter (fun x => x ≠ k) = ru.erase k := by
    rw [List.Nodup.erase_eq_filter hnd k]
    exact List.filter_congr (fun x _ => by simp [bne, beq_eq_decide])
  rw [hfe]
  refine List.take_of_length_le ?_
  have hpos : 1 ≤ ru.length := List.length_pos.mpr (by
    rintro rfl; simp at hmem)
  have hle : (ru.erase k).length = ru.length - 1 :=
    List.length_erase_of_mem hmem
  simp only [List.length_cons, hle]
  omega

/-- Re-pressing the module that is already most recent leaves
`recentlyUsed` unchanged. -/
lemma recentlyUsed_repress_head (s : NavigationState) (k t : String)
    (c : Screen) (hhead : s.recentlyUsed.head? = some k)
    (hlen : s.recentlyUsed.length ≤ recentlyUsedCapacity)
    (hnd : s.recentlyUsed.Nodup) :
    (RNTesterNavigationReducer s
        (NavigationAction.moduleCardPress k t c)).recentlyUsed
      = s.recentlyUsed := by
  obtain ⟨scr, amk, amt, aek, bm, ru⟩ := s
  dsimp only at hhead hlen hnd
  match ru, hhead, hlen, hnd with
  | a :: rest, hhead, hlen, hnd =>
    have hak : a = k := by simpa using hhead
    subst hak
    obtain ⟨hnotmem, hndr⟩ := List.nodup_cons.mp hnd
    simp only [RNTesterNavigationReducer]
    have h2 : rest.filter (fun x => x ≠ a) = rest :=
      List.filter_eq_self.mpr (fun x hx => by
        simp only [ne_eq, decide_eq_true_eq]
        rintro rfl; exact hnotmem hx)
    have h1 : (a :: rest).filter (fun x => x ≠ a) = rest := by
      rw [List.filter_cons]
      simp [h2]
      intro x hx hxa
      exact hnotmem (hxa ▸ hx)
    rw [h1]
    exact List.take_of_length_le hlen

/-- C2: in every state reachable from the initial state, `recentlyUsed` is
within the configured capacity and duplicate-free; pressing a module whose
key is already present moves the key to the front without duplicating it,
and re-pressing the already-most-recent module leaves the sequence
unchanged. -/
theorem recently_used_invariants (acts : List NavigationAction) :
    (runActions acts).recentlyUsed.length ≤ recentlyUsedCapacity ∧
    (runActions acts).recentlyUsed.Nodup ∧
    (∀ (k t : String) (c : Screen), k ∈ (runActions acts).recentlyUsed →
      (RNTesterNavigationReducer (runActions acts)
          (NavigationAction.moduleCardPress k t c)).recentlyUsed
        = k :: (runActions acts).recentlyUsed.erase k) ∧
    (∀ (k t : String) (c : Screen),
      (runActions acts).recentlyUsed.head? = some k →
      (RNTesterNavigationReducer (runActions acts)
          (NavigationAction.moduleCardPress k t c)).recentlyUsed
        = (runActions acts).recentlyUsed) := by
  obtain ⟨hlen, hnd⟩ := recentlyUsed_bounded_nodup_run acts
  exact ⟨hlen, hnd,
    fun k t c hmem =>
      recentlyUsed_move_to_front (runActions acts) k t c hmem hlen hnd,
    fun k t c hhead =>
      recentlyUsed_repress_head (runActions acts) k t c hhead hlen hnd⟩

/-- Witness for C2: after pressing ListView then Button, the recency list
is Button-then-ListView; re-pressing ListView moves it to the front, and
re-pressing Button (already most recent) changes nothing. -/
theorem recently_used_invariants_witness :
    ("ListView" ∈ (runActions
        [NavigationAction.moduleCardPress "ListView" "ListView"
            Screen.components,
          NavigationAction.moduleCardPress "Button" "Button"
            Screen.components]).recentlyUsed ∧
      (RNTesterNavigationReducer (runActions
          [NavigationAction.moduleCardPress "ListView" "ListView"
              Screen.components,
            NavigationAction.moduleCardPress "Button" "Button"
              Screen.components])
          (NavigationAction.moduleCardPress "ListView" "ListView"
            Screen.components)).recentlyUsed
        = "ListView" :: (runActions
            [NavigationAction.moduleCardPress "ListView" "ListView"
                Screen.components,
              NavigationAction.moduleCardPress "Button" "Button"
                Screen.components]).recentlyUsed.erase "ListView") ∧
    ((runActions
        [NavigationAction.moduleCardPress "ListView" "ListView"
            Screen.components,
          NavigationAction.moduleCardPress "Button" "Button"
            Screen.components]).recentlyUsed.head? = some "Button" ∧
      (RNTesterNavigationReducer (runActions
          [NavigationAction.moduleCardPress "ListView" "ListView"
              Screen.components,
            NavigationAction.moduleCardPress "Button" "Button"
              Screen.components])
          (NavigationAction.moduleCardPress "Button" "Button"
            Screen.components)).recentlyUsed
        = (runActions
            [NavigationAction.moduleCardPress "ListView" "ListView"
                Screen.components,
              NavigationAction.moduleCardPress "Button" "Button"
                Screen.components]).recentlyUsed) := by
  refine ⟨⟨by decide, ?_⟩, ⟨by decide, ?_⟩⟩
  · exact (recently_used_invariants
      [NavigationAction.moduleCardPress "ListView" "ListView"
          Screen.components,
        NavigationAction.moduleCardPress "Button" "Button"
          Screen.components]).2.2.1 "ListView" "ListView" Screen.components
      (by decide)
  · exact (recently_used_invariants
      [NavigationAction.moduleCardPress "ListView" "ListView"
          Screen.components,
        NavigationAction.moduleCardPress "Button" "Button"
          Screen.components]).2.2.2 "Button" "Button" Screen.components
      (by decide)

/-- C3: `BookmarkToggle(k, c)` is its own inverse — applying it twice
returns the original state — and a single toggle removes `(c, k)` from the
bookmark set when it is a member and inserts it otherwise. -/
theorem bookmark_toggle_involutive (s : NavigationState) (k : String)
    (c : Screen) :
    RNTesterNavigationReducer
        (RNTesterNavigationReducer s (NavigationAction.bookmarkToggle k c))
        (NavigationAction.bookmarkToggle k c) = s ∧
    ((c, k) ∈ s.bookmarks →
      (RNTesterNavigationReducer s
          (NavigationAction.bookmarkToggle k c)).bookmarks
        = s.bookmarks.erase (c, k)) ∧
    ((c, k) ∉ s.bookmarks →
      (RNTesterNavigationReducer s
          (NavigationAction.bookmarkToggle k c)).bookmarks
        = insert (c, k) s.bookmarks) := by
  obtain ⟨scr, amk, amt, aek, bm, ru⟩ := s
  by_cases h : (c, k) ∈ bm
  · refine ⟨?_, fun _ => ?_, fun hn => absurd h hn⟩
    · simp [RNTesterNavigationReducer, h, Finset.not_mem_erase,
        Finset.insert_erase h]
    · simp [RNTesterNavigationReducer, h]
  · refine ⟨?_, fun hm => absurd hm h, fun _ => ?_⟩
    · simp [RNTesterNavigationReducer, h, Finset.mem_insert_self,
        Finset.erase_insert h]
    · simp [RNTesterNavigationReducer, h]

/-- Witness for C3: both toggle branches and the double toggle at concrete
states. -/
theorem bookmark_toggle_involutive_witness :
    ((Screen.components, "Button") ∉ initialNavigationState.bookmarks ∧
      (RNTesterNavigationReducer initialNavigationState
          (NavigationAction.bookmarkToggle "Button"
            Screen.components)).bookmarks
        = insert (Screen.components, "Button")
            initialNavigationState.bookmarks) ∧
    ((Screen.components, "Button") ∈
        ({(Screen.components, "Button")} : Finset (Screen × String)) ∧
      (RNTesterNavigationReducer
          { initialNavigationState with
            bookmarks := {(Screen.components, "Button")} }
          (NavigationAction.bookmarkToggle "Button"
            Screen.components)).bookmarks
        = ({(Screen.components, "Button")} :
            Finset (Screen × String)).erase (Screen.components, "Button")) ∧
    RNTesterNavigationReducer
        (RNTesterNavigationReducer initialNavigationState
          (NavigationAction.bookmarkToggle "Button" Screen.components))
        (NavigationAction.bookmarkToggle "Button" Screen.components)
      = initialNavigationState := by
  refine ⟨⟨by decide, ?_⟩, ⟨by decide, ?_⟩, ?_⟩
  · exact (bookmark_toggle_involutive initialNavigationState "Button"
      Screen.components).2.2 (by decide)
  · exact (bookmark_toggle_involutive
      { initialNavigationState with
        bookmarks := {(Screen.components, "Button")} } "Button"
      Screen.components).2.1 (by decide)
  · exact (bookmark_toggle_involutive initialNavigationState "Button"
      Screen.components).1

/-- C6: the implication "an active example key implies an active module
key" holds in the initial state, is preserved by every reducer action, and
therefore holds in every state reachable from the initial state. -/
theorem example_implies_module_invariant :
    (initialNavigationState.activeModuleExampleKey ≠ none →
      initialNavigationState.activeModuleKey ≠ none) ∧
    (∀ (s : NavigationState) (a : NavigationAction),
      (s.activeModuleExampleKey ≠ none → s.activeModuleKey ≠ none) →
      ((RNTesterNavigationReducer s a).activeModuleExampleKey ≠ none →
        (RNTesterNavigationReducer s a).activeModuleKey ≠ none)) ∧
    (∀ acts : List NavigationAction,
      (runActions acts).activeModuleExampleKey ≠ none →
        (runActions acts).activeModuleKey ≠ none) :=
  ⟨by simp [initialNavigationState], inv_step_example_module,
    inv_run_example_module⟩

/-- Witness for C6: the invariant transported through one concrete step and
one concrete reachable state. -/
theorem example_implies_module_invariant_witness :
    ((RNTesterNavigationReducer
        { initialNavigationState with
          activeModuleKey := some "Button"
          activeModuleExampleKey := some "basic usage" }
        NavigationAction.backButtonPress).activeModuleExampleKey ≠ none →
      (RNTesterNavigationReducer
        { initialNavigationState with
          activeModuleKey := some "Button"
          activeModuleExampleKey := some "basic usage" }
        NavigationAction.backButtonPress).activeModuleKey ≠ none) ∧
    ((runActions [NavigationAction.moduleCardPress "Button" "Button"
          Screen.components,
        NavigationAction.exampleCardPress "basic usage"]).activeModuleKey
      ≠ none) := by
  constructor
  · exact example_implies_module_invariant.2.1
      { initialNavigationState with
        activeModuleKey := some "Button"
        activeModuleExampleKey := some "basic usage" }
      NavigationAction.backButtonPress (by decide)
  · exact example_implies_module_invariant.2.2
      [NavigationAction.moduleCardPress "Button" "Button" Screen.components,
        NavigationAction.exampleCardPress "basic usage"] (by decide)

/-- C8: the curator returns the "not ready" sentinel exactly when the
registry has not finished loading; for every loaded registry, bookmark set
and recency sequence it returns a value, and with everything empty that
value has all sections empty — an empty section is a value, not an
error. -/
theorem curator_not_ready_iff :
    (∀ (registry : Option (List CatalogModule))
        (bm : Finset (Screen × String)) (ru : List String),
      getExamplesListWithBookmarksAndRecentlyUsed registry bm ru = none ↔
        registry = none) ∧
    (∀ (mods : List CatalogModule) (bm : Finset (Screen × String))
        (ru : List String),
      getExamplesListWithBookmarksAndRecentlyUsed (some mods) bm ru
        = some (curateSections mods bm ru)) ∧
    getExamplesListWithBookmarksAndRecentlyUsed (some []) ∅ []
      = some { components := [], apis := [], bookmarks := [],
               recentlyUsed := [] } := by
  refine ⟨fun registry bm ru => ?_, fun mods bm ru => rfl, rfl⟩
  cases registry <;>
    simp [getExamplesListWithBookmarksAndRecentlyUsed]

/-- A module entry appears among the entries one module contributes to the
bookmarks section exactly when it is that module and its pair is
bookmarked. -/
lemma mem_bookmarkEntries_module (bm : Finset (Screen × String))
    (m0 m : CatalogModule) :
    CatalogEntry.moduleEntry m ∈ bookmarkEntries bm m0 ↔
      m = m0 ∧ (m0.category, m0.key) ∈ bm := by
  by_cases h : isBookmarked bm m0
  · have hb : (m0.category, m0.key) ∈ bm := by
      simpa [isBookmarked] using h
    simp [bookmarkEntries, h, hb]
  · have hb : (m0.category, m0.key) ∉ bm := by
      simpa [isBookmarked] using h
    simp [bookmarkEntries, h, hb]

/-- An example entry appears among the entries one module contributes to
the bookmarks section exactly when it pairs that module with one of its own
examples whose pair is bookmarked. -/
lemma mem_bookmarkEntries_example (bm : Finset (Screen × String))
    (m0 m : CatalogModule) (e : CatalogExample) :
    CatalogEntry.exampleEntry m e ∈ bookmarkEntries bm m0 ↔
      m = m0 ∧ e ∈ m0.examples ∧ (m0.category, e.name) ∈ bm := by
  by_cases h : isBookmarked bm m0 <;>
    simp [bookmarkEntries, h, List.mem_filter, isExampleBookmarked,
      and_assoc, and_comm, eq_comm]

/-- C9: stale keys never fail — the bookmarks section holds exactly the
registry modules and registry examples whose pair is bookmarked, the
recently-used section holds exactly the modules some recency key resolves
to, a recency key resolving to no module is silently dropped, and an
active example key matching no example of the active module yields no
example rather than an error. -/
theorem stale_key_graceful (mods : List CatalogModule)
    (bm : Finset (Screen × String)) (ru : List String) :
    (∀ m : CatalogModule,
      CatalogEntry.moduleEntry m ∈ (curateSections mods bm ru).bookmarks ↔
        m ∈ mods ∧ (m.category, m.key) ∈ bm) ∧
    (∀ (m : CatalogModule) (e : CatalogExample),
      CatalogEntry.exampleEntry m e ∈
          (curateSections mods bm ru).bookmarks ↔
        m ∈ mods ∧ e ∈ m.examples ∧ (m.category, e.name) ∈ bm) ∧
    (∀ m : CatalogModule,
      m ∈ (curateSections mods bm ru).recentlyUsed ↔
        ∃ k, k ∈ ru ∧ mods.find? (fun m2 => m2.key = k) = some m) ∧
    (∀ k : String, mods.find? (fun m2 => m2.key = k) = none →
      (curateSections mods bm (k :: ru)).recentlyUsed
        = (curateSections mods bm ru).recentlyUsed) ∧
    (∀ (amk : Option String) (ek : String) (m : CatalogModule),
      activeModule mods amk = some m →
      (∀ e ∈ m.examples, ¬ e.name = ek) →
      activeModuleExample mods amk (some ek) = none) := by
  refine ⟨fun m => ?_, fun m e => ?_, fun m => ?_, fun k h => ?_,
    fun amk ek m hm hn => ?_⟩
  · constructor
    · intro hmem
      obtain ⟨m0, hm0, hent⟩ := List.mem_flatMap.mp hmem
      obtain ⟨rfl, hb⟩ := (mem_bookmarkEntries_module bm m0 m).mp hent
      exact ⟨hm0, hb⟩
    · rintro ⟨hmem, hb⟩
      exact List.mem_flatMap.mpr
        ⟨m, hmem, (mem_bookmarkEntries_module bm m m).mpr ⟨rfl, hb⟩⟩
  · constructor
    · intro hmem
      obtain ⟨m0, hm0, hent⟩ := List.mem_flatMap.mp hmem
      obtain ⟨rfl, he, hb⟩ :=
        (mem_bookmarkEntries_example bm m0 m e).mp hent
      exact ⟨hm0, he, hb⟩
    · rintro ⟨hmem, he, hb⟩
      exact List.mem_flatMap.mpr
        ⟨m, hmem, (mem_bookmarkEntries_example bm m m e).mpr ⟨rfl, he, hb⟩⟩
  · simp [curateSections, List.mem_filterMap]
  · simp [curateSections, List.filterMap_cons, h]
  · simp only [activeModuleExample, hm, Option.some_bind]
    rw [List.find?_eq_none]
    intro e he
    simpa using hn e he

/-- Witness for C9: a one-module registry with a bookmarked example, a
stale bookmark pair, a stale recency key and a missing example name — the
resolving example bookmark is included, the stale items are omitted. -/
theorem stale_key_graceful_witness :
    (CatalogEntry.exampleEntry
        { key := "Button", title := "Button",
          category := Screen.components,
          examples := [{ name := "basic usage" }] }
        { name := "basic usage" } ∈
      (curateSections
          [{ key := "Button", title := "Button",
             category := Screen.components,
             examples := [{ name := "basic usage" }] }]
          {(Screen.components, "basic usage"), (Screen.apis, "Gone")}
          ["Button"]).bookmarks) ∧
    ((List.find? (fun m2 => m2.key = "Gone")
        [({ key := "Button", title := "Button",
            category := Screen.components,
            examples := [{ name := "basic usage" }] } : CatalogModule)]
        = none) ∧
      (curateSections
          [{ key := "Button", title := "Button",
             category := Screen.components,
             examples := [{ name := "basic usage" }] }]
          {(Screen.components, "basic usage"), (Screen.apis, "Gone")}
          ["Gone", "Button"]).recentlyUsed
        = (curateSections
            [{ key := "Button", title := "Button",
               category := Screen.components,
               examples := [{ name := "basic usage" }] }]
            {(Screen.components, "basic usage"), (Screen.apis, "Gone")}
            ["Button"]).recentlyUsed) ∧
    (activeModule
        [({ key := "Button", title := "Button",
            category := Screen.components,
            examples := [{ name := "basic usage" }] } : CatalogModule)]
        (some "Button")
      = some { key := "Button", title := "Button",
               category := Screen.components,
               examples := [{ name := "basic usage" }] } ∧
      activeModuleExample
        [{ key := "Button", title := "Button",
           category := Screen.components,
           examples := [{ name := "basic usage" }] }]
        (some "Button") (some "missing example") = none) := by
  refine ⟨?_, ⟨by decide, ?_⟩, ⟨by decide, ?_⟩⟩
  · exact ((stale_key_graceful
      [{ key := "Button", title := "Button",
         category := Screen.components,
         examples := [{ name := "basic usage" }] }]
      {(Screen.components, "basic usage"), (Screen.apis, "Gone")}
      ["Button"]).2.1
      { key := "Button", title := "Button",
        category := Screen.components,
        examples := [{ name := "basic usage" }] }
      { name := "basic usage" }).mpr (by decide)
  · exact (stale_key_graceful
      [{ key := "Button", title := "Button",
         category := Screen.components,
         examples := [{ name := "basic usage" }] }]
      {(Screen.components, "basic usage"), (Screen.apis, "Gone")}
      ["Button"]).2.2.2.1 "Gone" (by decide)
  · exact (stale_key_graceful
      [{ key := "Button", title := "Button",
         category := Screen.components,
         examples := [{ name := "basic usage" }] }]
      {(Screen.components, "basic usage"), (Screen.apis, "Gone")}
      ["Button"]).2.2.2.2 (some "Button")
      "missing example"
      { key := "Button", title := "Button",
        category := Screen.components,
        examples := [{ name := "basic usage" }] } (by decide) (by decide)

/-- C10 counterexample: with `activeModuleKey` equal to the empty string —
non-null, yet falsy in JavaScript — `handleHardwareBackPress` returns false
and dispatches nothing, so "consumes and dispatches exactly when
`activeModuleKey` is non-null" fails as stated. -/
theorem hardware_back_press_nonnull_fails :
    (some "" : Option String) ≠ none ∧
    handleHardwareBackPress (some "") = (false, false) := by
  exact ⟨by simp, by decide⟩

/-- C10 (amended): `handleHardwareBackPress` consumes the platform event
and dispatches `BackButtonPress` exactly when `activeModuleKey` is truthy
(non-null and non-empty); when it is falsy — null in particular — it
returns false and dispatches nothing, so a back action is never dispatched
from a state with no open module key. -/
theorem hardware_back_press_truthy (amk : Option String) :
    (handleHardwareBackPress amk = (true, true) ↔ jsTruthy amk = true) ∧
    (jsTruthy amk = false → handleHardwareBackPress amk = (false, false)) ∧
    ((handleHardwareBackPress amk).2 = true → amk ≠ none) ∧
    (amk = none → handleHardwareBackPress amk = (false, false)) := by
  cases amk with
  | none => simp [handleHardwareBackPress, jsTruthy]
  | some s =>
      by_cases h : s = ""
      · subst h
        simp [handleHardwareBackPress, jsTruthy]
      · simp [handleHardwareBackPress, jsTruthy, h,
          handleBackPressDispatches]

/-- Witness for C10 (amended): the null case, the dispatching case and the
never-dispatch-without-a-module consequence at concrete inputs. -/
theorem hardware_back_press_truthy_witness :
    handleHardwareBackPress none = (false, false) ∧
    handleHardwareBackPress (some "Button") = (true, true) ∧
    (some "Button" : Option String) ≠ none := by
  refine ⟨?_, ?_, ?_⟩
  · exact (hardware_back_press_truthy none).2.2.2 rfl
  · exact (hardware_back_press_truthy (some "Button")).1.mpr (by decide)
  · exact (hardware_back_press_truthy (some "Button")).2.2.1 (by decide)

end RNTester
